import Mathlib

/-!
Verification of the `llm-tournament-widget` backend (`backend/main.py`).

The backend keeps three Python dicts (`tournaments`, `prompts`, `results`)
mapping entity id to a JSON-like dict, mirrored to disk.  Python dicts
preserve insertion order, so each store is embedded as an association list
`List (String × α)`; `dictGet` returns the first binding, `dictSet`
replaces in place or appends, exactly like `d[k]` / `d[k] = v`.

Numbers that Python holds as `float` (scores) are embedded as `ℚ`; every
score literal appearing in the program and in the claims (7.0, 8.5, …) is
exactly representable, and `max`/`min`/comparisons agree.  Strings are
embedded as Lean `String`; `str.strip()` (`pyStrip`) and `str.lower()`
(`pyLower`) are modelled on ASCII whitespace/case, which agrees with
Python on all inputs relevant here.

Provider behaviour (the OpenAI client) is an opaque input: a streaming
call yields a list of chunk contents and then either exhausts or raises;
a judge call either raises or returns an optional message content
(`message.content` can be `None`).  Fresh UUIDs and timestamps are inputs.
-/

namespace TW

/-- `backend/main.py` class `Prompt` (lines 82–86), as stored in the
`prompts` dict.  The stored dicts carry the keys `id`, `name`, `content`,
`description`; the field `tournament_id` models the *absent* dict key that
`delete_prompt_from_tournament` probes with `prompt.get("tournament_id")`
(line 1024): no code path of the backend ever writes that key, so every
prompt created through the API has `tournament_id = none`. -/
structure Prompt where
  id : String
  name : String
  content : String
  description : Option String := none
  tournament_id : Option String := none
  deriving DecidableEq

/-- `backend/main.py` class `Tournament` (lines 93–100). -/
structure Tournament where
  id : String
  name : String
  description : String
  question : String
  prompt_ids : List String
  created_at : String
  status : String := "active"
  deriving DecidableEq

/-- `backend/main.py` class `TournamentResult` (lines 102–112).  The final
two fields model the `prompt_name` / `prompt_content` dict keys that
`get_tournament_leaderboard` (lines 965–968) writes in place onto the
stored result dicts; they are absent (`none`) on every freshly stored
result.  `evaluation_metrics` is never written by any handler and is kept
as an opaque optional association list. -/
structure TournamentResult where
  id : Option String := none
  tournament_id : String
  prompt_id : String
  response : String
  score : Option ℚ := none
  feedback : Option String := none
  created_at : Option String := none
  ai_evaluated : Option Bool := none
  evaluation_timestamp : Option String := none
  evaluation_metrics : Option (List (String × String)) := none
  prompt_name : Option String := none
  prompt_content : Option String := none
  deriving DecidableEq

/-- A Python dict entity-id → entity, with insertion order. -/
abbrev Dict (α : Type) := List (String × α)

/-- `d.get(k)` / `d[k]`: first binding of `k`. -/
def dictGet {α : Type} : Dict α → String → Option α
  | [], _ => none
  | (k', v) :: rest, k => if k' = k then some v else dictGet rest k

/-- `d[k] = v`: replace the binding in place, or append a new one. -/
def dictSet {α : Type} : Dict α → String → α → Dict α
  | [], k, v => [(k, v)]
  | (k', v') :: rest, k, v =>
      if k' = k then (k, v) :: rest else (k', v') :: dictSet rest k v

/-- `del d[k]`. -/
def dictDelete {α : Type} (d : Dict α) (k : String) : Dict α :=
  d.filter (fun e => decide (e.1 ≠ k))

/-- `list(d.keys())`. -/
def dictKeys {α : Type} (d : Dict α) : List String := d.map (·.1)

/-- The three global in-memory stores of `backend/main.py` (lines 76–78). -/
structure Store where
  tournaments : Dict Tournament
  prompts : Dict Prompt
  results : Dict TournamentResult
  deriving DecidableEq

/-! ### Score extraction (`auto_score_response`, lines 813–819)

`re.search(r'(\d+(?:\.\d+)?)/10|score[:\s]*(\d+(?:\.\d+)?)', ai_feedback.lower())`
followed by `float(...)` on the first non-empty group and
`max(1, min(10, score))`, defaulting to `7.0` when there is no match.

The regex is embedded as a deterministic scanner.  `re.search` returns the
leftmost match, trying the first alternative before the second at each
position.  Greedy `\d+` never needs to backtrack here: a shortened digit
run leaves a digit as the next character, which can match neither `.` nor
`/`; similarly a shortened `[:\s]*` run leaves a `:`/space where a digit
is required, and when `(?:\.\d+)?` matched but `/10` fails the
no-fraction alternative would need `/` where the `.` stands.  `\d`, `\s`
and lowercasing are modelled on ASCII. -/

/-- Characters of Python `\s` / `str.strip()` (ASCII part). -/
def isSpaceRe (c : Char) : Bool :=
  c == ' ' || c == '\t' || c == '\n' || c == '\r' || c == Char.ofNat 11 || c == Char.ofNat 12

/-- ASCII lowercasing of one character (Python `str.lower()`). -/
def lowerC (c : Char) : Char :=
  if 'A' ≤ c ∧ c ≤ 'Z' then Char.ofNat (c.toNat + 32) else c

/-- Python `s.lower()` (ASCII model). -/
def pyLower (s : String) : String := String.mk (s.toList.map lowerC)

/-- Python `s.strip()` (ASCII model). -/
def pyStrip (s : String) : String :=
  String.mk (((s.toList.dropWhile isSpaceRe).reverse.dropWhile isSpaceRe).reverse)

/-- Python truthiness of `s.strip()` being empty: `not s.strip()`. -/
def stripIsEmpty (s : String) : Bool := s.toList.all isSpaceRe

/-- Characters of the class `[:\s]`. -/
def isColonSpace (c : Char) : Bool := c == ':' || isSpaceRe c

/-- Maximal digit run and the remainder (`\d+`, greedy). -/
def takeDigits : List Char → List Char × List Char
  | [] => ([], [])
  | c :: cs =>
      if c.isDigit then
        let (d, r) := takeDigits cs
        (c :: d, r)
      else ([], c :: cs)

/-- Does the text start with the literal `/10`? -/
def startsSlash10 : List Char → Bool
  | '/' :: '1' :: '0' :: _ => true
  | _ => false

/-- Maximal `[:\s]*` run dropped (greedy). -/
def dropColonSpace : List Char → List Char
  | [] => []
  | c :: cs => if isColonSpace c then dropColonSpace cs else c :: cs

/-- First alternative `(\d+(?:\.\d+)?)/10` anchored at the head; returns
the text of group 1. -/
def alt1 (s : List Char) : Option (List Char) :=
  match takeDigits s with
  | ([], _) => none
  | (ds, rest) =>
      match rest with
      | '.' :: r2 =>
          match takeDigits r2 with
          | ([], _) => none
          | (fs, r3) => if startsSlash10 r3 then some (ds ++ '.' :: fs) else none
      | _ => if startsSlash10 rest then some ds else none

/-- Second alternative `score[:\s]*(\d+(?:\.\d+)?)` anchored at the head;
returns the text of group 2. -/
def alt2 : List Char → Option (List Char)
  | 's' :: 'c' :: 'o' :: 'r' :: 'e' :: rest =>
      match takeDigits (dropColonSpace rest) with
      | ([], _) => none
      | (ds, r2) =>
          match r2 with
          | '.' :: r3 =>
              match takeDigits r3 with
              | ([], _) => some ds
              | (fs, _) => some (ds ++ '.' :: fs)
          | _ => some ds
  | _ => none

/-- `re.search`: scan positions left to right, first alternative first. -/
def searchNumber : List Char → Option (List Char)
  | [] => none
  | c :: cs =>
      match alt1 (c :: cs) with
      | some n => some n
      | none =>
          match alt2 (c :: cs) with
          | some n => some n
          | none => searchNumber cs

/-- Value of a digit run. -/
def digitsVal (ds : List Char) : Nat :=
  ds.foldl (fun a c => a * 10 + (c.toNat - 48)) 0

/-- Split a matched number at its (first) dot. -/
def splitAtDot : List Char → List Char × List Char
  | [] => ([], [])
  | '.' :: cs => ([], cs)
  | c :: cs =>
      let (a, b) := splitAtDot cs
      (c :: a, b)

/-- `float(...)` on a matched number literal. -/
def numberVal (n : List Char) : ℚ :=
  let (ip, fp) := splitAtDot n
  (digitsVal ip : ℚ) + (digitsVal fp : ℚ) / ((10 : ℚ) ^ fp.length)

/-- The regex search of `auto_score_response` line 814, on the lowercased
critique, returning the numeric value of the first match. -/
def searchScore (ai_feedback : String) : Option ℚ :=
  (searchNumber (pyLower ai_feedback).toList).map numberVal

/-- Python built-in `min` of two values. -/
def pyMin (a b : ℚ) : ℚ := if a ≤ b then a else b

/-- Python built-in `max` of two values. -/
def pyMax (a b : ℚ) : ℚ := if b ≤ a then a else b

/-- `max(1, min(10, score))` (line 817). -/
def clampScore (q : ℚ) : ℚ := pyMax 1 (pyMin 10 q)

/-- Lines 814–819: the score assigned from a critique text — the clamped
first match, or the `7.0` default. -/
def parsedScore (ai_feedback : String) : ℚ :=
  match searchScore ai_feedback with
  | some v => clampScore v
  | none => 7

theorem clampScore_bounds (v : ℚ) : 1 ≤ clampScore v ∧ clampScore v ≤ 10 := by
  unfold clampScore pyMax pyMin
  split_ifs <;> constructor <;> linarith

/-- C3.  The score-extraction rule of `auto_score_response` (lines
814–819): a found match is clamped to `[1, 10]`; no match defaults to
`7.0`; and on the claim's concrete inputs it yields `8.5`, `3.0`, `10.0`
and `7.0` respectively. -/
theorem claim3_score_extraction :
    (∀ s v, searchScore s = some v →
        parsedScore s = clampScore v ∧ 1 ≤ parsedScore s ∧ parsedScore s ≤ 10) ∧
    parsedScore "8.5/10 — good" = 8.5 ∧
    parsedScore "Score: 3" = 3 ∧
    parsedScore "15/10" = 10 ∧
    (∀ s, searchScore s = none → parsedScore s = 7) := by
  refine ⟨?_, ?_, ?_, ?_, ?_⟩
  · intro s v h
    have hp : parsedScore s = clampScore v := by simp [parsedScore, h]
    exact ⟨hp, hp ▸ (clampScore_bounds v).1, hp ▸ (clampScore_bounds v).2⟩
  · have h1 : searchNumber (pyLower "8.5/10 — good").data = some ['8', '.', '5'] := by
      decide
    have h2 : numberVal ['8', '.', '5'] = 17 / 2 := by
      have hs : splitAtDot ['8', '.', '5'] = (['8'], ['5']) := by decide
      have d1 : digitsVal ['8'] = 8 := by decide
      have d2 : digitsVal ['5'] = 5 := by decide
      simp [numberVal, hs, d1, d2]
      norm_num
    simp [parsedScore, searchScore, h1, h2, clampScore, pyMin, pyMax]
    norm_num
  · have h1 : searchNumber (pyLower "Score: 3").data = some ['3'] := by decide
    have h2 : numberVal ['3'] = 3 := by
      have hs : splitAtDot ['3'] = (['3'], []) := by decide
      have d1 : digitsVal ['3'] = 3 := by decide
      have d2 : digitsVal ([] : List Char) = 0 := by decide
      simp [numberVal, hs, d1, d2]
    simp [parsedScore, searchScore, h1, h2, clampScore, pyMin, pyMax]
    norm_num
  · have h1 : searchNumber (pyLower "15/10").data = some ['1', '5'] := by decide
    have h2 : numberVal ['1', '5'] = 15 := by
      have hs : splitAtDot ['1', '5'] = (['1', '5'], []) := by decide
      have d1 : digitsVal ['1', '5'] = 15 := by decide
      have d2 : digitsVal ([] : List Char) = 0 := by decide
      simp [numberVal, hs, d1, d2]
    simp [parsedScore, searchScore, h1, h2, clampScore, pyMin, pyMax]
    norm_num
  · intro s h
    simp [parsedScore, h]

/-- Witness for C3: the first conjunct applied at the concrete critique
`"Score: 3"`. -/
theorem claim3_score_extraction_witness :
    searchScore "Score: 3" = some 3 ∧
      (parsedScore "Score: 3" = clampScore 3 ∧
        1 ≤ parsedScore "Score: 3" ∧ parsedScore "Score: 3" ≤ 10) := by
  have h : searchScore "Score: 3" = some 3 := by
    have h1 : searchNumber (pyLower "Score: 3").data = some ['3'] := by decide
    have h2 : numberVal ['3'] = 3 := by
      have hs : splitAtDot ['3'] = (['3'], []) := by decide
      have d1 : digitsVal ['3'] = 3 := by decide
      have d2 : digitsVal ([] : List Char) = 0 := by decide
      simp [numberVal, hs, d1, d2]
    simp [searchScore, h1, h2]
  exact ⟨h, claim3_score_extraction.1 "Score: 3" 3 h⟩

/-! ### Provider model and the evaluation engine -/

/-- Outcome of the judge call in `auto_score_response` (line 780):
either `openai.ChatCompletion.acreate` raises, or it returns a message
whose `content` is an optional string (`None` is possible in the client's
data model). -/
inductive JudgeOutcome where
  | callFails (msg : String)
  | replies (content : Option String)
  deriving DecidableEq

/-- Python exceptions that `auto_score_response` can surface through its
outer `except` (line 884). -/
inductive PyExc where
  /-- `TypeError` from `ai_feedback[:200]` in the fallback branch (line
  846) when `ai_feedback` is `None`. -/
  | typeErrorNoneSlice
  /-- `NameError` from the unbound identifier `reasoning` in the fallback
  branch's return payload (line 859).  The constructor exists so the
  behaviour asserted by the specification can be stated; the theorems
  below show the embedded handler never produces it. -/
  | nameErrorReasoning
  /-- The judge call itself raised. -/
  | providerError (msg : String)
  deriving DecidableEq

/-- `HTTPException`s raised by the handlers. -/
inductive ApiErr where
  | notFound (detail : String)
  | badRequest (detail : String)
  | configError (detail : String)
  | scoringFailed (exc : PyExc)
  | serverError (detail : String)
  deriving DecidableEq

/-- Successful JSON payload of `auto_score_response` (lines 835–840). -/
structure ScoreOk where
  result_id : String
  score : ℚ
  feedback : String
  deriving DecidableEq

/-- Python truthiness of an optional string (`request.get(...)` is `None`
when absent, and the empty string is falsy). -/
def truthy (o : Option String) : Option String :=
  match o with
  | some s => if s = "" then none else some s
  | none => none

/-- `auto_score_response` (`backend/main.py` lines 749–886).  Validation:
tournament lookup, API-key check, required `prompt_id`/`result_id`,
result lookup with matching `tournament_id`/`prompt_id`, prompt lookup.
Then one judge call.  On a reply with string content the inline parse
(lines 813–819) cannot raise, so the result dict is updated in place
(score, feedback, `ai_evaluated`, `evaluation_timestamp`) and saved.  On
a reply with `None` content, `ai_feedback.lower()` raises, the fallback
branch is entered, and its feedback-formatting expression
`ai_feedback[:200]` (line 846) raises `TypeError` *before* the branch's
mutations (lines 848–851) and before its `return` — so the store is left
untouched and the outer handler re-raises as a 500. -/
def auto_score_response (st : Store) (api_key : Bool) (tournament_id : String)
    (req_prompt_id req_result_id : Option String) (judge : JudgeOutcome)
    (now : String) : Store × Except ApiErr ScoreOk :=
  match dictGet st.tournaments tournament_id with
  | none => (st, .error (.notFound "Tournament not found"))
  | some _ =>
    if !api_key then (st, .error (.configError "OpenAI API key not configured"))
    else
      match truthy req_prompt_id, truthy req_result_id with
      | some prompt_id, some result_id =>
        (match dictGet st.results result_id with
         | none => (st, .error (.notFound "Result not found"))
         | some result =>
           if result.tournament_id = tournament_id ∧ result.prompt_id = prompt_id then
             match dictGet st.prompts prompt_id with
             | none => (st, .error (.notFound "Prompt not found"))
             | some _ =>
               match judge with
               | .callFails msg => (st, .error (.scoringFailed (.providerError msg)))
               | .replies none => (st, .error (.scoringFailed .typeErrorNoneSlice))
               | .replies (some ai_feedback) =>
                 let score := parsedScore ai_feedback
                 let result2 := { result with
                   score := some score
                   feedback := some ai_feedback
                   ai_evaluated := some true
                   evaluation_timestamp := some now }
                 ({ st with results := dictSet st.results result_id result2 },
                  .ok ⟨result_id, score, ai_feedback⟩)
           else (st, .error (.notFound "Result not found")))
      | _, _ => (st, .error (.badRequest "prompt_id and result_id are required"))

/-! ### Streaming model and the generation engine -/

/-- How a provider stream terminates after its listed chunks: normal
exhaustion of the `async for`, or an exception. -/
inductive StreamEnd where
  | exhausted
  | raised (msg : String)
  deriving DecidableEq

/-- One streaming call: the `delta.content` of each chunk (chunks without
choices/delta/content are `none`), then the terminator. -/
structure StreamRun where
  chunks : List (Option String)
  ending : StreamEnd
  deriving DecidableEq

/-- SSE events of the single auto-generate endpoint (payload keys per
lines 346, 360, 394, 416, 422, 493). -/
inductive GenEvent where
  | token (prompt_id tok full_response : String)
  | noContent (prompt_id : String)
  | complete (result_id : String)
  | truncComplete (result_id : String)
  | streamError (prompt_id msg : String)
  | fallbackData (prompt_id full_response : String)
  deriving DecidableEq

/-- Tokens the single-generate stream appends: line 341 requires
`choice.delta.content and choice.delta.content.strip()` — a present,
non-empty, not-all-whitespace content. -/
def singleTokens (chunks : List (Option String)) : List String :=
  chunks.filterMap (fun c =>
    match c with
    | some s => if !(s = "") && !stripIsEmpty s then some s else none
    | none => none)

/-- The token events with running accumulator (`full_response`), and the
final accumulator. -/
def tokenEvents (prompt_id : String) (toks : List String) : List GenEvent × String :=
  toks.foldl (fun acc t => (acc.1 ++ [.token prompt_id t (acc.2 ++ t)], acc.2 ++ t)) ([], "")

/-- A freshly persisted result (lines 364–371): fresh id, the caller's
tournament and prompt, the accumulated response, `created_at = now`, and
every optional field unset. -/
def freshResult (rid tournament_id prompt_id response now : String) : TournamentResult :=
  { id := some rid
    tournament_id := tournament_id
    prompt_id := prompt_id
    response := response
    created_at := some now }

/-- The truncation marker appended to a partial response (line 407). -/
def cutMarker : String := "\n\n[Response was cut off due to an error]"

/-- The inner generator `generate_stream` of `auto_generate_response`
(`backend/main.py` lines 324–425), for a validated context.  On
exhaustion with an all-whitespace accumulator: a terminal error event and
no store change (lines 358–361).  On exhaustion with content: persist,
then invoke `auto_score_response` whose failure is swallowed (lines
381–391), then the terminal `complete` event.  On a mid-stream exception:
persist the partial text plus `cutMarker` and emit `partial_complete`
(no evaluation), or emit an error event if nothing was accumulated. -/
def generate_stream (st : Store) (api_key : Bool) (tournament_id prompt_id : String)
    (run : StreamRun) (judge : JudgeOutcome) (now rid : String) :
    Store × List GenEvent :=
  let toks := singleTokens run.chunks
  let evs := (tokenEvents prompt_id toks).1
  let full := (tokenEvents prompt_id toks).2
  match run.ending with
  | .exhausted =>
    if stripIsEmpty full then
      (st, evs ++ [.noContent prompt_id])
    else
      let result := freshResult rid tournament_id prompt_id full now
      let st1 : Store := { st with results := dictSet st.results rid result }
      let st2 :=
        (auto_score_response st1 api_key tournament_id (some prompt_id) (some rid)
          judge now).1
      (st2, evs ++ [.complete rid])
  | .raised msg =>
    if !stripIsEmpty full then
      let result := freshResult rid tournament_id prompt_id (full ++ cutMarker) now
      ({ st with results := dictSet st.results rid result },
       evs ++ [.truncComplete rid])
    else
      (st, evs ++ [.streamError prompt_id msg])

/-- The non-streaming fallback attempt (lines 443–510): either one
complete completion plus the judge outcome of the chained evaluation, or
a failure. -/
inductive FallbackOutcome where
  | completes (text : String) (judge : JudgeOutcome)
  | fails (msg : String)
  deriving DecidableEq

/-- The provider behaviour for one single-generate invocation: the
streaming `acreate` either succeeds (the generator then runs) or raises,
in which case the non-streaming fallback is attempted. -/
inductive SingleProvider where
  | streams (run : StreamRun) (judge : JudgeOutcome)
  | setupFails (fb : FallbackOutcome)
  deriving DecidableEq

/-- `auto_generate_response` (`backend/main.py` lines 268–522):
validation (missing `prompt_id` → 400, unknown tournament/prompt → 404,
missing key → 500), then the streaming generator, or on streaming-setup
failure the non-streaming fallback, which persists the complete text,
chains evaluation the same way, and emits `fallback` + `complete`. -/
def auto_generate_response (st : Store) (api_key : Bool)
    (tournament_id prompt_id : String) (prov : SingleProvider) (now rid : String) :
    Except ApiErr (Store × List GenEvent) :=
  if prompt_id = "" then .error (.badRequest "prompt_id is required")
  else
    match dictGet st.tournaments tournament_id with
    | none => .error (.notFound "Tournament not found")
    | some _ =>
      match dictGet st.prompts prompt_id with
      | none => .error (.notFound "Prompt not found")
      | some _ =>
        if !api_key then .error (.configError "OpenAI API key not configured")
        else
          match prov with
          | .streams run judge =>
            .ok (generate_stream st api_key tournament_id prompt_id run judge now rid)
          | .setupFails (.completes text judge) =>
            let result := freshResult rid tournament_id prompt_id text now
            let st1 : Store := { st with results := dictSet st.results rid result }
            let st2 :=
              (auto_score_response st1 api_key tournament_id (some prompt_id)
                (some rid) judge now).1
            .ok (st2, [.fallbackData prompt_id text, .complete rid])
          | .setupFails (.fails msg) => .error (.serverError msg)

/-! ### Bulk generation orchestrator -/

/-- SSE events of `auto-generate-all` (`status` values per lines 568,
572, 598, 636, 665, 673, 690, 693). -/
inductive BulkEvent where
  | skipped (prompt_id : String)
  | starting (prompt_id : String)
  | token (prompt_id tok full_response : String)
  | complete (prompt_id result_id : String)
  | truncComplete (prompt_id result_id : String)
  | errored (prompt_id msg : String)
  | summary (total generated skipped errors : Nat)
  deriving DecidableEq

/-- Entries of `generated_results` (their `status` strings: `generated`,
`skipped`, `partial`, `error`). -/
inductive GStatus where
  | generated
  | wasSkipped
  | truncated
  | errored
  deriving DecidableEq

/-- Provider behaviour for one prompt of a bulk run: the `acreate` call
raises, or streams. -/
inductive PromptProvider where
  | setupFails (msg : String)
  | streams (run : StreamRun) (judge : JudgeOutcome)

/-- Tokens the bulk stream appends: line 595 requires only
`chunk.choices[0].delta.content` to be truthy — no `.strip()` filter,
unlike the single-generate path. -/
def bulkTokens (chunks : List (Option String)) : List String :=
  chunks.filterMap (fun c =>
    match c with
    | some s => if s = "" then none else some s
    | none => none)

/-- Bulk token events with running accumulator. -/
def bulkTokenEvents (prompt_id : String) (toks : List String) :
    List BulkEvent × String :=
  toks.foldl (fun acc t => (acc.1 ++ [.token prompt_id t (acc.2 ++ t)], acc.2 ++ t)) ([], "")

/-- Line 556: `next((r for r in results.values() if r["tournament_id"] ==
tournament_id and r["prompt_id"] == prompt["id"]), None)` is not `None` —
any matching result, regardless of its score state. -/
def hasResultFor (st : Store) (tournament_id prompt_id : String) : Bool :=
  st.results.any (fun e =>
    decide (e.2.tournament_id = tournament_id ∧ e.2.prompt_id = prompt_id))

/-- Loop state of `generate_all_stream`: the shared store, the emitted
events, the `generated_results` tally, and the number of fresh result ids
consumed so far. -/
structure BulkState where
  store : Store
  events : List BulkEvent
  tally : List GStatus
  fresh : Nat

/-- One iteration of the `for prompt in tournament_prompts` loop of
`generate_all_stream` (`backend/main.py` lines 554–690).  An existing
(tournament, prompt) result → `skipped`.  Otherwise `starting`, then the
stream; on exhaustion the result is stored *unconditionally* (there is no
empty-accumulator check on this path, unlike the single endpoint),
evaluation is chained with failures swallowed, and `complete` is emitted;
on a mid-stream exception a non-empty accumulator is stored with
`cutMarker` (`partial_complete`), an empty one yields an `error` entry;
a setup failure yields an `error` entry.  The loop never re-raises. -/
def bulkStep (api_key : Bool) (tournament_id : String)
    (prov : String → PromptProvider) (rids : Nat → String) (now : String)
    (s : BulkState) (p : Prompt) : BulkState :=
  if hasResultFor s.store tournament_id p.id then
    { s with events := s.events ++ [.skipped p.id], tally := s.tally ++ [.wasSkipped] }
  else
    let evs0 := s.events ++ [.starting p.id]
    match prov p.id with
    | .setupFails msg =>
      { store := s.store, events := evs0 ++ [.errored p.id msg]
        tally := s.tally ++ [.errored], fresh := s.fresh }
    | .streams run judge =>
      let toks := bulkTokens run.chunks
      let tokEvs := (bulkTokenEvents p.id toks).1
      let full := (bulkTokenEvents p.id toks).2
      match run.ending with
      | .exhausted =>
        let rid := rids s.fresh
        let result := freshResult rid tournament_id p.id full now
        let st1 : Store := { s.store with results := dictSet s.store.results rid result }
        let st2 :=
          (auto_score_response st1 api_key tournament_id (some p.id) (some rid)
            judge now).1
        { store := st2, events := evs0 ++ tokEvs ++ [.complete p.id rid]
          tally := s.tally ++ [.generated], fresh := s.fresh + 1 }
      | .raised msg =>
        if !stripIsEmpty full then
          let rid := rids s.fresh
          let result := freshResult rid tournament_id p.id (full ++ cutMarker) now
          { store := { s.store with results := dictSet s.store.results rid result }
            events := evs0 ++ tokEvs ++ [.truncComplete p.id rid]
            tally := s.tally ++ [.truncated], fresh := s.fresh + 1 }
        else
          { store := s.store, events := evs0 ++ tokEvs ++ [.errored p.id msg]
            tally := s.tally ++ [.errored], fresh := s.fresh }

/-- Count of one status in the tally. -/
def countStatus (t : List GStatus) (g : GStatus) : Nat :=
  (t.filter (fun x => decide (x = g))).length

/-- `generate_all_stream` (`backend/main.py` lines 551–693): fold the
per-prompt step over the tournament's prompts, then the final summary
event (line 693; note the `partial` tally entries are counted in none of
generated/skipped/errors). -/
def generate_all_stream (st : Store) (api_key : Bool) (tournament_id : String)
    (tournament_prompts : List Prompt) (prov : String → PromptProvider)
    (rids : Nat → String) (now : String) : Store × List BulkEvent :=
  let s := tournament_prompts.foldl (bulkStep api_key tournament_id prov rids now)
    { store := st, events := [], tally := [], fresh := 0 }
  (s.store, s.events ++ [.summary tournament_prompts.length
    (countStatus s.tally .generated) (countStatus s.tally .wasSkipped)
    (countStatus s.tally .errored)])

/-- Line 544: `[prompts[pid] for pid in tournament["prompt_ids"] if pid in
prompts]`. -/
def tournamentPrompts (st : Store) (t : Tournament) : List Prompt :=
  t.prompt_ids.filterMap (fun pid => dictGet st.prompts pid)

/-- `auto_generate_all_responses` (`backend/main.py` lines 524–705):
validation, then the bulk stream. -/
def auto_generate_all_responses (st : Store) (api_key : Bool) (tournament_id : String)
    (prov : String → PromptProvider) (rids : Nat → String) (now : String) :
    Except ApiErr (Store × List BulkEvent) :=
  match dictGet st.tournaments tournament_id with
  | none => .error (.notFound "Tournament not found")
  | some t =>
    if !api_key then .error (.configError "OpenAI API key not configured")
    else
      let tps := tournamentPrompts st t
      if tps = [] then .error (.notFound "No prompts found for tournament")
      else .ok (generate_all_stream st api_key tournament_id tps prov rids now)

/-! ### Remaining endpoints -/

/-- `submit_result` (`backend/main.py` lines 707–721): the body's `id`,
`tournament_id` and `created_at` are overwritten with a fresh UUID, the
path parameter and the current time; everything else is stored as
submitted. -/
def submit_result (st : Store) (tournament_id : String) (body : TournamentResult)
    (now rid : String) : Except ApiErr (Store × TournamentResult) :=
  match dictGet st.tournaments tournament_id with
  | none => .error (.notFound "Tournament not found")
  | some _ =>
    let r := { body with
      id := some rid
      tournament_id := tournament_id
      created_at := some now }
    .ok ({ st with results := dictSet st.results rid r }, r)

/-- `delete_tournament` (`backend/main.py` lines 972–1007): delete every
result whose `tournament_id` matches, every prompt whose id is listed in
the tournament's `prompt_ids`, then the tournament itself. -/
def delete_tournament (st : Store) (tournament_id : String) : Except ApiErr Store :=
  match dictGet st.tournaments tournament_id with
  | none => .error (.notFound "Tournament not found")
  | some t =>
    .ok { tournaments := dictDelete st.tournaments tournament_id
          prompts := st.prompts.filter (fun e => decide (e.1 ∉ t.prompt_ids))
          results := st.results.filter (fun e => decide (e.2.tournament_id ≠ tournament_id)) }

/-- `delete_prompt_from_tournament` (`backend/main.py` lines 1009–1063).
After the two lookups it verifies ownership with
`prompt.get("tournament_id") != tournament_id` (line 1024) and raises 400
when the comparison is unequal — which it always is for prompts created
by this backend, since nothing ever writes a `tournament_id` key into a
prompt dict.  On the (unreachable for API-created prompts) success path it
deletes the prompt, filters its id out of the tournament's `prompt_ids`,
and deletes every result whose `prompt_id` matches. -/
def delete_prompt_from_tournament (st : Store) (tournament_id prompt_id : String) :
    Except ApiErr (Store × Nat) :=
  match dictGet st.tournaments tournament_id with
  | none => .error (.notFound "Tournament not found")
  | some t =>
    match dictGet st.prompts prompt_id with
    | none => .error (.notFound "Prompt not found")
    | some p =>
      if p.tournament_id ≠ some tournament_id then
        .error (.badRequest "Prompt does not belong to this tournament")
      else
        let deleted :=
          (st.results.filter (fun e => decide (e.2.prompt_id = prompt_id))).length
        .ok ({ tournaments := dictSet st.tournaments tournament_id
                 { t with prompt_ids := t.prompt_ids.filter (fun pid => decide (pid ≠ prompt_id)) }
               prompts := dictDelete st.prompts prompt_id
               results := st.results.filter (fun e => decide (e.2.prompt_id ≠ prompt_id)) },
             deleted)

/-- `add_prompt_to_tournament` (`backend/main.py` lines 1078–1127): name
and content must be non-blank; the stored prompt dict (lines 1099–1104)
has keys `id`, `name` (stripped), `content` (stripped), `description` —
and no `tournament_id` key. -/
def add_prompt_to_tournament (st : Store) (tournament_id : String) (body : Prompt)
    (pid : String) : Except ApiErr (Store × Prompt) :=
  match dictGet st.tournaments tournament_id with
  | none => .error (.notFound "Tournament not found")
  | some t =>
    if body.name = "" ∨ stripIsEmpty body.name then
      .error (.badRequest "Prompt name is required")
    else if body.content = "" ∨ stripIsEmpty body.content then
      .error (.badRequest "Prompt content is required")
    else
      let prompt_data : Prompt :=
        { id := pid, name := pyStrip body.name, content := pyStrip body.content,
          description := some (body.description.getD ""), tournament_id := none }
      .ok ({ st with
               prompts := dictSet st.prompts pid prompt_data
               tournaments := dictSet st.tournaments tournament_id
                 { t with prompt_ids := t.prompt_ids ++ [pid] } },
           prompt_data)

/-- `get_tournament_results` (`backend/main.py` lines 940–949). -/
def get_tournament_results (st : Store) (tournament_id : String) :
    Except ApiErr (List TournamentResult) :=
  match dictGet st.tournaments tournament_id with
  | none => .error (.notFound "Tournament not found")
  | some _ =>
    .ok ((st.results.map (·.2)).filter (fun r => decide (r.tournament_id = tournament_id)))

/-! ### Leaderboard -/

/-- The sort key `lambda x: x["score"]` (scores are never `None` on the
filtered list). -/
def scoreKey (r : TournamentResult) : ℚ := r.score.getD 0

/-- Insert into a descending-sorted list, after every strictly greater
element — `list.sort(key=..., reverse=True)` is stable, so an element
never moves past an equal key. -/
def insertDesc (r : TournamentResult) : List TournamentResult → List TournamentResult
  | [] => [r]
  | a :: as => if scoreKey r < scoreKey a then a :: insertDesc r as else r :: a :: as

/-- Stable descending sort.  Python's `list.sort(key=..., reverse=True)`
is stable and total on the (float) keys; any stable sort produces the
same list, so insertion sort is used. -/
def sortDesc : List TournamentResult → List TournamentResult
  | [] => []
  | x :: xs => insertDesc x (sortDesc xs)

/-- Lines 956–959: the results with matching `tournament_id` and a
non-`None` score, in store (insertion) order. -/
def lbFilter (st : Store) (tournament_id : String) : List TournamentResult :=
  (st.results.map (·.2)).filter (fun r =>
    decide (r.tournament_id = tournament_id ∧ r.score ≠ none))

/-- Lines 965–968: writing `prompt_name` / `prompt_content` onto a result
dict, when the referenced prompt exists. -/
def enrichOne (ps : Dict Prompt) (r : TournamentResult) : TournamentResult :=
  match dictGet ps r.prompt_id with
  | some p => { r with prompt_name := some p.name, prompt_content := some p.content }
  | none => r

/-- `get_tournament_leaderboard` (`backend/main.py` lines 951–970).  The
filtered list aliases the stored dicts: the enrichment loop therefore
mutates the store in place, so the function returns the updated store
together with the response list (the sorted, enriched results). -/
def get_tournament_leaderboard (st : Store) (tournament_id : String) :
    Except ApiErr (Store × List TournamentResult) :=
  match dictGet st.tournaments tournament_id with
  | none => .error (.notFound "Tournament not found")
  | some _ =>
    let out := (sortDesc (lbFilter st tournament_id)).map (enrichOne st.prompts)
    let results2 := st.results.map (fun e =>
      (e.1, if e.2.tournament_id = tournament_id ∧ e.2.score ≠ none
            then enrichOne st.prompts e.2 else e.2))
    .ok ({ st with results := results2 }, out)

/-! ### Dictionary lemmas -/

theorem dictGet_dictSet_self {α : Type} (d : Dict α) (k : String) (v : α) :
    dictGet (dictSet d k v) k = some v := by
  induction d with
  | nil => simp [dictSet, dictGet]
  | cons e rest ih =>
    obtain ⟨k', v'⟩ := e
    by_cases h : k' = k <;> simp [dictSet, dictGet, h, ih]

theorem dictGet_mem {α : Type} {d : Dict α} {k : String} {v : α}
    (h : dictGet d k = some v) : (k, v) ∈ d := by
  induction d with
  | nil => simp [dictGet] at h
  | cons e rest ih =>
    obtain ⟨k', v'⟩ := e
    by_cases hk : k' = k
    · subst hk
      simp [dictGet] at h
      simp [h]
    · simp [dictGet, hk] at h
      exact List.mem_cons_of_mem _ (ih h)

theorem dictGet_eq_none_iff {α : Type} (d : Dict α) (k : String) :
    dictGet d k = none ↔ k ∉ dictKeys d := by
  induction d with
  | nil => simp [dictGet, dictKeys]
  | cons e rest ih =>
    obtain ⟨k', v'⟩ := e
    by_cases hk : k' = k
    · subst hk
      simp [dictGet, dictKeys]
    · simp only [dictGet, if_neg hk, ih, dictKeys, List.map_cons, List.mem_cons]
      constructor
      · intro h hor
        rcases hor with h1 | h2
        · exact hk h1.symm
        · exact h h2
      · intro h hmem
        exact h (Or.inr hmem)

theorem dictSet_fresh {α : Type} {d : Dict α} {k : String} (v : α)
    (h : dictGet d k = none) : dictSet d k v = d ++ [(k, v)] := by
  induction d with
  | nil => simp [dictSet]
  | cons e rest ih =>
    obtain ⟨k', v'⟩ := e
    by_cases hk : k' = k
    · subst hk; simp [dictGet] at h
    · simp [dictGet, hk] at h
      simp [dictSet, hk, ih h]

theorem dictGet_filter_of_pred {α : Type} {d : Dict α} {p : String × α → Bool}
    {k : String} {v : α} (h : dictGet d k = some v) (hp : p (k, v) = true) :
    dictGet (d.filter p) k = some v := by
  induction d with
  | nil => simp [dictGet] at h
  | cons e rest ih =>
    obtain ⟨k', v'⟩ := e
    by_cases hk : k' = k
    · subst hk
      simp [dictGet] at h
      subst h
      simp [List.filter, hp, dictGet]
    · simp [dictGet, hk] at h
      by_cases hpe : p (k', v') = true
      · simp [List.filter, hpe, dictGet, hk, ih h]
      · simp at hpe
        simp [List.filter, hpe, ih h]

theorem dictGet_filter_none {α : Type} {d : Dict α} {p : String × α → Bool}
    {k : String} (h : ∀ v, p (k, v) = false) : dictGet (d.filter p) k = none := by
  induction d with
  | nil => simp [dictGet]
  | cons e rest ih =>
    obtain ⟨k', v'⟩ := e
    by_cases hk : k' = k
    · subst hk
      simp [List.filter, h v', ih]
    · by_cases hpe : p (k', v') = true
      · simp [List.filter, hpe, dictGet, hk, ih]
      · simp at hpe
        simp [List.filter, hpe, ih]

theorem dictGet_map_val {α β : Type} (f : α → β) (d : Dict α) (k : String) :
    dictGet (d.map (fun e => (e.1, f e.2))) k = (dictGet d k).map f := by
  induction d with
  | nil => simp [dictGet]
  | cons e rest ih =>
    obtain ⟨k', v'⟩ := e
    by_cases hk : k' = k <;> simp [dictGet, hk, ih]

/-! ### Frame lemmas for the evaluation engine -/

/-- The fields of a stored result that `auto_score_response` can never
change: key, `tournament_id`, `prompt_id`, `response`. -/
def entryShape (e : String × TournamentResult) : String × String × String × String :=
  (e.1, e.2.tournament_id, e.2.prompt_id, e.2.response)

theorem dictSet_map_shape {d : Dict TournamentResult} {k : String}
    {v w : TournamentResult} (h : dictGet d k = some w)
    (hs : entryShape (k, v) = entryShape (k, w)) :
    (dictSet d k v).map entryShape = d.map entryShape := by
  induction d with
  | nil => simp [dictGet] at h
  | cons e rest ih =>
    obtain ⟨k', v'⟩ := e
    by_cases hk : k' = k
    · subst hk
      simp [dictGet] at h
      subst h
      simp [dictSet, hs]
    · simp [dictGet, hk] at h
      simp [dictSet, hk, ih h]

theorem dictSet_update_shape {d : Dict TournamentResult} {k : String}
    {w : TournamentResult} (h : dictGet d k = some w)
    (sc : Option ℚ) (fb : Option String) (ts : Option String) :
    (dictSet d k { w with
        score := sc
        feedback := fb
        ai_evaluated := some true
        evaluation_timestamp := ts }).map entryShape
      = d.map entryShape :=
  dictSet_map_shape h rfl

theorem auto_score_frame (st : Store) (api_key : Bool) (tournament_id : String)
    (po ro : Option String) (judge : JudgeOutcome) (now : String) :
    (auto_score_response st api_key tournament_id po ro judge now).1.tournaments
        = st.tournaments ∧
    (auto_score_response st api_key tournament_id po ro judge now).1.prompts
        = st.prompts ∧
    (auto_score_response st api_key tournament_id po ro judge now).1.results.map entryShape
        = st.results.map entryShape := by
  unfold auto_score_response
  repeat' split
  all_goals
    first
      | exact ⟨rfl, rfl, rfl⟩
      | exact ⟨rfl, rfl, dictSet_update_shape (by assumption) _ _ _⟩

theorem auto_score_error_frame (st : Store) (api_key : Bool) (tournament_id : String)
    (po ro : Option String) (judge : JudgeOutcome) (now : String) :
    ∀ e : ApiErr,
      (auto_score_response st api_key tournament_id po ro judge now).2 = .error e →
      (auto_score_response st api_key tournament_id po ro judge now).1 = st := by
  unfold auto_score_response
  repeat' split
  all_goals intro e h
  all_goals first | rfl | simp at h

theorem keys_of_shape {d d' : Dict TournamentResult}
    (h : d.map entryShape = d'.map entryShape) : dictKeys d = dictKeys d' := by
  have h2 := congrArg (List.map (fun x : String × String × String × String => x.1)) h
  simpa [dictKeys, List.map_map, Function.comp, entryShape] using h2

/-- Number of stored results for one (tournament, prompt) pair. -/
def countPair (d : Dict TournamentResult) (tid pid : String) : Nat :=
  (d.filter (fun e => decide (e.2.tournament_id = tid ∧ e.2.prompt_id = pid))).length

theorem countPair_of_shape {d d' : Dict TournamentResult}
    (h : d.map entryShape = d'.map entryShape) (tid pid : String) :
    countPair d tid pid = countPair d' tid pid := by
  have aux : ∀ dd : Dict TournamentResult,
      countPair dd tid pid = ((dd.map entryShape).filter
        (fun x => decide (x.2.1 = tid ∧ x.2.2.1 = pid))).length := by
    intro dd
    induction dd with
    | nil => simp [countPair]
    | cons e rest ih =>
      by_cases hp : e.2.tournament_id = tid ∧ e.2.prompt_id = pid
      · simp [countPair, List.filter, entryShape, hp] at ih ⊢
        exact ih
      · simp [countPair, List.filter, entryShape, hp] at ih ⊢
        exact ih
  rw [aux d, aux d', h]

theorem countPair_append_single (d : Dict TournamentResult) (k : String)
    (r : TournamentResult) (tid pid : String) :
    countPair (d ++ [(k, r)]) tid pid =
      countPair d tid pid +
        (if r.tournament_id = tid ∧ r.prompt_id = pid then 1 else 0) := by
  by_cases hp : r.tournament_id = tid ∧ r.prompt_id = pid <;>
    simp [countPair, List.filter_append, List.filter_cons, hp]

theorem hasResultFor_false_iff (st : Store) (tid pid : String) :
    hasResultFor st tid pid = false ↔ countPair st.results tid pid = 0 := by
  simp [hasResultFor, countPair, List.length_eq_zero, List.filter_eq_nil_iff,
    List.any_eq_true]

theorem dictGet_shape {d d' : Dict TournamentResult}
    (h : d.map entryShape = d'.map entryShape) (k : String) :
    (dictGet d k).map (fun r => (r.tournament_id, r.prompt_id, r.response)) =
      (dictGet d' k).map (fun r => (r.tournament_id, r.prompt_id, r.response)) := by
  induction d generalizing d' with
  | nil =>
    cases d' with
    | nil => rfl
    | cons e' rest' => simp at h
  | cons e rest ih =>
    cases d' with
    | nil => simp at h
    | cons e' rest' =>
      obtain ⟨k1, v1⟩ := e
      obtain ⟨k2, v2⟩ := e'
      simp only [List.map_cons, List.cons.injEq, entryShape, Prod.mk.injEq] at h
      obtain ⟨⟨hk, ht, hp, hr⟩, htl⟩ := h
      by_cases hkk : k1 = k
      · subst hkk
        simp [dictGet, hk.symm, ht, hp, hr]
      · rw [hk] at hkk
        simp [dictGet, hkk, hk ▸ hkk, ih htl]

theorem dictGet_filter_key {α : Type} (d : Dict α) (p : String → Bool) (k : String) :
    dictGet (d.filter (fun e => p e.1)) k =
      if p k then dictGet d k else none := by
  induction d with
  | nil => simp [dictGet]
  | cons e rest ih =>
    obtain ⟨k', v'⟩ := e
    by_cases hk : k' = k
    · subst hk
      by_cases hp : p k' = true
      · simp [List.filter_cons, hp, dictGet]
      · simp at hp
        simp [List.filter_cons, hp, dictGet, ih]
    · by_cases hp : p k' = true
      · simp [List.filter_cons, hp, dictGet, hk, ih]
      · simp at hp
        simp [List.filter_cons, hp, ih, dictGet, hk]

/-! ### C10 — manual result submission -/

/-- C10.  `submit_result` ignores the client-supplied `id`,
`tournament_id` and `created_at` (lines 712–714): the stored entity gets
the fresh UUID, the path parameter, and the submission timestamp, while
`response`, `score` and `feedback` are stored as given. -/
theorem claim10_submit_result (st : Store) (tournament_id : String)
    (body : TournamentResult) (now rid : String) (st2 : Store)
    (r : TournamentResult)
    (h : submit_result st tournament_id body now rid = .ok (st2, r)) :
    dictGet st2.results rid = some r ∧
    r.id = some rid ∧ r.tournament_id = tournament_id ∧ r.created_at = some now ∧
    r.response = body.response ∧ r.score = body.score ∧
    r.feedback = body.feedback := by
  unfold submit_result at h
  split at h
  · simp at h
  · simp only [Except.ok.injEq, Prod.mk.injEq] at h
    obtain ⟨h1, h2⟩ := h
    subst h2
    rw [← h1]
    exact ⟨dictGet_dictSet_self _ _ _, rfl, rfl, rfl, rfl, rfl, rfl⟩

/-! ### C5 — tournament deletion cascade -/

/-- C5.  `delete_tournament` removes the tournament, every prompt listed
in its `prompt_ids`, and every result whose `tournament_id` matches —
and nothing else. -/
theorem claim5_delete_tournament (st : Store) (tid : String) (t : Tournament)
    (st2 : Store) (ht : dictGet st.tournaments tid = some t)
    (h : delete_tournament st tid = .ok st2) :
    dictGet st2.tournaments tid = none ∧
    (∀ pid ∈ t.prompt_ids, dictGet st2.prompts pid = none) ∧
    (∀ k r, dictGet st2.results k = some r → r.tournament_id ≠ tid) ∧
    (∀ k, k ≠ tid → dictGet st2.tournaments k = dictGet st.tournaments k) ∧
    (∀ pid, pid ∉ t.prompt_ids → dictGet st2.prompts pid = dictGet st.prompts pid) ∧
    (∀ k r, dictGet st.results k = some r → r.tournament_id ≠ tid →
        dictGet st2.results k = some r) := by
  unfold delete_tournament at h
  rw [ht] at h
  simp only [Except.ok.injEq] at h
  subst h
  refine ⟨?_, ?_, ?_, ?_, ?_, ?_⟩
  · exact dictGet_filter_none (fun v => by simp [dictDelete])
  · intro pid hpid
    exact dictGet_filter_none (fun v => by simp [hpid])
  · intro k r hr
    have hmem := dictGet_mem hr
    have := List.of_mem_filter hmem
    simpa using this
  · intro k hk
    have := dictGet_filter_key st.tournaments (fun x => decide (x ≠ tid)) k
    simpa [dictDelete, hk] using this
  · intro pid hpid
    have := dictGet_filter_key st.prompts (fun x => decide (x ∉ t.prompt_ids)) pid
    simpa [hpid] using this
  · intro k r hr hrt
    exact dictGet_filter_of_pred hr (by simpa using hrt)

/-! ### C6 — prompt deletion is unreachable for API-created prompts -/

/-- C6 (code defect).  Every prompt stored by `add_prompt_to_tournament`
carries no `tournament_id` key, yet `delete_prompt_from_tournament`
requires `prompt.get("tournament_id") == tournament_id` (line 1024)
before doing anything — so deleting any API-created prompt from its own
tournament is rejected with 400 and nothing is deleted, contrary to the
documented cascade. -/
theorem claim6_delete_prompt_rejected :
    (∀ st tid body pid st2 pr,
        add_prompt_to_tournament st tid body pid = .ok (st2, pr) →
        pr.tournament_id = none ∧ dictGet st2.prompts pid = some pr) ∧
    (∀ st tid pid t p,
        dictGet st.tournaments tid = some t →
        dictGet st.prompts pid = some p →
        p.tournament_id = none →
        delete_prompt_from_tournament st tid pid =
          .error (.badRequest "Prompt does not belong to this tournament")) := by
  constructor
  · intro st tid body pid st2 pr h
    unfold add_prompt_to_tournament at h
    split at h
    · simp at h
    · split at h
      · simp at h
      · split at h
        · simp at h
        · simp only [Except.ok.injEq, Prod.mk.injEq] at h
          obtain ⟨h1, h2⟩ := h
          subst h2
          rw [← h1]
          exact ⟨rfl, dictGet_dictSet_self _ _ _⟩
  · intro st tid pid t p ht hp hnone
    simp [delete_prompt_from_tournament, ht, hp, hnone]

/-! ### C9 — the fallback branch of `auto_score_response` -/

/-- A store with one tournament, one prompt and one matching unscored
result, used to drive `auto_score_response` into its fallback branch. -/
def c9store : Store :=
  { tournaments := [("t1",
      { id := "t1", name := "T", description := "D", question := "Q",
        prompt_ids := ["p1"], created_at := "t0", status := "active" })]
    prompts := [("p1",
      { id := "p1", name := "P", content := "C", description := none,
        tournament_id := none })]
    results := [("r1", freshResult "r1" "t1" "p1" "answer" "t1time")] }

/-- Counterexample to C9 as stated.  The fallback branch *is* reached
here (the judge reply has `None` content, so `ai_feedback.lower()`
raises and the `except` at line 842 is entered), but the invocation
fails with the `TypeError` raised by `ai_feedback[:200]` at line 846 —
*not* with the undefined-name error of line 859 — and the store is
returned completely unchanged: no score 7.0 is written, `ai_evaluated`
is not set, nothing is saved. -/
theorem claim9_counterexample :
    auto_score_response c9store true "t1" (some "p1") (some "r1")
        (.replies none) "now" =
      (c9store, .error (.scoringFailed .typeErrorNoneSlice)) ∧
    PyExc.typeErrorNoneSlice ≠ PyExc.nameErrorReasoning := by
  constructor
  · rfl
  · decide

/-- C9 amended.  The fallback branch of `auto_score_response` does
reference the unbound name `reasoning` in its return payload (line 859),
but whenever the branch is reached — the parse step raises only when the
judge reply has `None` content — the branch itself raises first, at the
fallback-feedback formatting `ai_feedback[:200]` (line 846): the return
expression is never evaluated, so no undefined-name error is ever
surfaced, and the stored result is not mutated and the store not
saved. -/
theorem claim9_amended :
    (∀ st api_key tid po ro judge now,
        (auto_score_response st api_key tid po ro judge now).2 ≠
          .error (.scoringFailed .nameErrorReasoning)) ∧
    (∀ (st : Store) (tid pid rid : String) t (r : TournamentResult) p now,
        dictGet st.tournaments tid = some t →
        dictGet st.results rid = some r →
        r.tournament_id = tid → r.prompt_id = pid →
        dictGet st.prompts pid = some p →
        pid ≠ "" → rid ≠ "" →
        auto_score_response st true tid (some pid) (some rid)
            (.replies none) now =
          (st, .error (.scoringFailed .typeErrorNoneSlice))) := by
  constructor
  · intro st api_key tid po ro judge now
    unfold auto_score_response
    repeat' split
    all_goals simp
  · intro st tid pid rid t r p now ht hr hrt hrp hp hpid hrid
    simp [auto_score_response, ht, truthy, hpid, hrid, hr, hrt, hrp, hp]

/-- Witness for the amended C9 at the concrete store. -/
theorem claim9_amended_witness :
    dictGet c9store.tournaments "t1" =
        some { id := "t1", name := "T", description := "D", question := "Q",
               prompt_ids := ["p1"], created_at := "t0", status := "active" } ∧
    dictGet c9store.results "r1" = some (freshResult "r1" "t1" "p1" "answer" "t1time") ∧
    auto_score_response c9store true "t1" (some "p1") (some "r1")
        (.replies none) "now2" =
      (c9store, .error (.scoringFailed .typeErrorNoneSlice)) := by
  refine ⟨by rfl, by rfl, ?_⟩
  exact claim9_amended.2 c9store "t1" "p1" "r1" _ _ _ "now2" (by rfl) (by rfl)
    (by rfl) (by rfl) (by rfl) (by decide) (by decide)

/-! ### C2 — persist before evaluate; evaluation failure leaves the
result unscored -/

/-- The accumulator the single-generate stream ends with. -/
def genAccum (pid : String) (run : StreamRun) : String :=
  (tokenEvents pid (singleTokens run.chunks)).2

/-- The token events the single-generate stream emits. -/
def genTokenEvs (pid : String) (run : StreamRun) : List GenEvent :=
  (tokenEvents pid (singleTokens run.chunks)).1

/-- The store right after the persist step (lines 363–376), before the
chained evaluation. -/
def persistedStore (st : Store) (rid tid pid full now : String) : Store :=
  { st with results := dictSet st.results rid (freshResult rid tid pid full now) }

/-- C2.  When the single-generate stream exhausts with non-empty
accumulated content: the result is persisted (with `score = None`)
*before* `auto_score_response` is invoked — the store handed to the
evaluation engine already contains it — the terminal `complete` event is
emitted unconditionally afterwards, the result is still present in the
final store whatever the evaluation did, and if the evaluation raised
the stored result is exactly the freshly persisted, unscored one. -/
theorem claim2_persist_before_eval (st : Store) (api_key : Bool)
    (tid pid : String) (run : StreamRun) (judge : JudgeOutcome) (now rid : String)
    (hend : run.ending = .exhausted)
    (hfull : stripIsEmpty (genAccum pid run) = false) :
    dictGet (persistedStore st rid tid pid (genAccum pid run) now).results rid
      = some (freshResult rid tid pid (genAccum pid run) now) ∧
    (freshResult rid tid pid (genAccum pid run) now).score = none ∧
    generate_stream st api_key tid pid run judge now rid =
      ((auto_score_response (persistedStore st rid tid pid (genAccum pid run) now)
          api_key tid (some pid) (some rid) judge now).1,
       genTokenEvs pid run ++ [.complete rid]) ∧
    (dictGet (generate_stream st api_key tid pid run judge now rid).1.results rid).isSome
      = true ∧
    (∀ e, (auto_score_response (persistedStore st rid tid pid (genAccum pid run) now)
          api_key tid (some pid) (some rid) judge now).2 = .error e →
      dictGet (generate_stream st api_key tid pid run judge now rid).1.results rid =
        some (freshResult rid tid pid (genAccum pid run) now)) := by
  have hgen : generate_stream st api_key tid pid run judge now rid =
      ((auto_score_response (persistedStore st rid tid pid (genAccum pid run) now)
          api_key tid (some pid) (some rid) judge now).1,
       genTokenEvs pid run ++ [.complete rid]) := by
    unfold generate_stream persistedStore genAccum genTokenEvs
    rw [hend]
    simp only [genAccum] at hfull
    simp [hfull]
  refine ⟨by unfold persistedStore; exact dictGet_dictSet_self _ _ _, rfl, hgen, ?_, ?_⟩
  · rw [hgen]
    have hshape := (auto_score_frame (persistedStore st rid tid pid (genAccum pid run) now)
      api_key tid (some pid) (some rid) judge now).2.2
    have hget := dictGet_shape hshape rid
    have hpers : dictGet (persistedStore st rid tid pid (genAccum pid run) now).results rid
        = some (freshResult rid tid pid (genAccum pid run) now) := by
      unfold persistedStore
      exact dictGet_dictSet_self _ _ _
    rw [hpers] at hget
    cases hcase : dictGet (auto_score_response
        (persistedStore st rid tid pid (genAccum pid run) now)
        api_key tid (some pid) (some rid) judge now).1.results rid with
    | none => rw [hcase] at hget; simp at hget
    | some r => simp
  · intro e he
    rw [hgen]
    have hframe := auto_score_error_frame
      (persistedStore st rid tid pid (genAccum pid run) now)
      api_key tid (some pid) (some rid) judge now e he
    rw [hframe]
    unfold persistedStore
    exact dictGet_dictSet_self _ _ _

/-- Store for the C2 witness. -/
def c2store : Store :=
  { tournaments := [("t1",
      { id := "t1", name := "T", description := "D", question := "Q",
        prompt_ids := ["p1"], created_at := "t0", status := "active" })]
    prompts := [("p1",
      { id := "p1", name := "P", content := "C", description := none,
        tournament_id := none })]
    results := [] }

/-- Stream for the C2 witness: one content chunk, then exhaustion. -/
def c2run : StreamRun := { chunks := [some "Hello"], ending := .exhausted }

/-- Witness for C2: a one-chunk stream whose chained evaluation fails
(the judge call raises); the result is still stored, unscored. -/
theorem claim2_witness :
    c2run.ending = .exhausted ∧
    stripIsEmpty (genAccum "p1" c2run) = false ∧
    dictGet (generate_stream c2store true "t1" "p1" c2run
        (.callFails "down") "now" "r1").1.results "r1" =
      some (freshResult "r1" "t1" "p1" (genAccum "p1" c2run) "now") := by
  have h := claim2_persist_before_eval c2store true "t1" "p1" c2run
    (.callFails "down") "now" "r1" rfl (by decide)
  exact ⟨rfl, by decide, h.2.2.2.2 (.scoringFailed (.providerError "down")) (by rfl)⟩

/-! ### C8 — the leaderboard read mutates the stored results -/

/-- Store for the C8 theorems: one scored result whose prompt exists. -/
def c8store : Store :=
  { tournaments := [("t1",
      { id := "t1", name := "T", description := "D", question := "Q",
        prompt_ids := ["p1"], created_at := "t0", status := "active" })]
    prompts := [("p1",
      { id := "p1", name := "P", content := "C", description := none,
        tournament_id := none })]
    results := [("r1", { freshResult "r1" "t1" "p1" "resp" "t1time" with
      score := some 8 })] }

/-- The same stored result after the leaderboard enrichment wrote
`prompt_name` / `prompt_content` into it. -/
def c8enriched : TournamentResult :=
  { freshResult "r1" "t1" "p1" "resp" "t1time" with
    score := some 8, prompt_name := some "P", prompt_content := some "C" }

/-- Counterexample to C8 as stated: computing the leaderboard *changes*
the results store — the stored result dict acquires `prompt_name` and
`prompt_content`, because the response list aliases the stored dicts and
lines 965–968 mutate them in place. -/
theorem claim8_counterexample :
    get_tournament_leaderboard c8store "t1" =
      .ok ({ c8store with results := [("r1", c8enriched)] }, [c8enriched]) ∧
    ({ c8store with results := [("r1", c8enriched)] } : Store) ≠ c8store := by
  exact ⟨rfl, by decide⟩

/-- C8 amended.  The leaderboard read leaves the tournaments and prompts
stores unchanged and neither adds nor removes results, but each stored
Result that appears on the leaderboard (matching `tournament_id`,
non-null score) is mutated in place by the enrichment step; all other
results are untouched. -/
theorem claim8_amended (st : Store) (tid : String) (st2 : Store)
    (out : List TournamentResult)
    (h : get_tournament_leaderboard st tid = .ok (st2, out)) :
    st2.tournaments = st.tournaments ∧ st2.prompts = st.prompts ∧
    dictKeys st2.results = dictKeys st.results ∧
    (∀ k r, dictGet st.results k = some r →
        dictGet st2.results k =
          some (if r.tournament_id = tid ∧ r.score ≠ none
                then enrichOne st.prompts r else r)) := by
  unfold get_tournament_leaderboard at h
  split at h
  · simp at h
  · simp only [Except.ok.injEq, Prod.mk.injEq] at h
    obtain ⟨h1, _⟩ := h
    subst h1
    refine ⟨rfl, rfl, ?_, ?_⟩
    · simp [dictKeys, List.map_map, Function.comp]
    · intro k r hr
      have hmap := dictGet_map_val
        (fun r => if r.tournament_id = tid ∧ r.score ≠ none
          then enrichOne st.prompts r else r) st.results k
      rw [hr] at hmap
      simpa using hmap

/-- Witness for the amended C8 at the concrete store. -/
theorem claim8_amended_witness :
    get_tournament_leaderboard c8store "t1" =
      .ok ({ c8store with results := [("r1", c8enriched)] }, [c8enriched]) ∧
    (({ c8store with results := [("r1", c8enriched)] } : Store).tournaments
        = c8store.tournaments ∧
      ({ c8store with results := [("r1", c8enriched)] } : Store).prompts
        = c8store.prompts ∧
      dictKeys ({ c8store with results := [("r1", c8enriched)] } : Store).results
        = dictKeys c8store.results ∧
      (∀ k r, dictGet c8store.results k = some r →
        dictGet ({ c8store with results := [("r1", c8enriched)] } : Store).results k =
          some (if r.tournament_id = "t1" ∧ r.score ≠ none
                then enrichOne c8store.prompts r else r))) := by
  have h : get_tournament_leaderboard c8store "t1" =
      .ok ({ c8store with results := [("r1", c8enriched)] }, [c8enriched]) := rfl
  exact ⟨h, claim8_amended c8store "t1" _ _ h⟩

/-! ### C7 — leaderboard: filter, stable descending sort, enrichment -/

theorem insertDesc_perm (r : TournamentResult) (l : List TournamentResult) :
    (insertDesc r l).Perm (r :: l) := by
  induction l with
  | nil => simp [insertDesc]
  | cons a as ih =>
    by_cases h : scoreKey r < scoreKey a
    · simp only [insertDesc, if_pos h]
      exact (ih.cons a).trans (List.Perm.swap r a as)
    · simp [insertDesc, if_neg h]

theorem sortDesc_perm (l : List TournamentResult) : (sortDesc l).Perm l := by
  induction l with
  | nil => simp [sortDesc]
  | cons x xs ih =>
    exact (insertDesc_perm x (sortDesc xs)).trans (ih.cons x)

theorem insertDesc_pairwise {r : TournamentResult} {l : List TournamentResult}
    (h : l.Pairwise (fun a b => scoreKey b ≤ scoreKey a)) :
    (insertDesc r l).Pairwise (fun a b => scoreKey b ≤ scoreKey a) := by
  induction l with
  | nil => simp [insertDesc]
  | cons a as ih =>
    rw [List.pairwise_cons] at h
    obtain ⟨ha, has⟩ := h
    by_cases hlt : scoreKey r < scoreKey a
    · simp only [insertDesc, if_pos hlt]
      rw [List.pairwise_cons]
      constructor
      · intro x hx
        rcases List.mem_cons.mp ((insertDesc_perm r as).mem_iff.mp hx) with h1 | h2
        · rw [h1]
          exact le_of_lt hlt
        · exact ha x h2
      · exact ih has
    · simp only [insertDesc, if_neg hlt]
      rw [List.pairwise_cons]
      constructor
      · intro x hx
        rcases List.mem_cons.mp hx with h1 | h2
        · rw [h1]
          exact not_lt.mp hlt
        · exact le_trans (ha x h2) (not_lt.mp hlt)
      · exact List.pairwise_cons.mpr ⟨ha, has⟩

theorem sortDesc_pairwise (l : List TournamentResult) :
    (sortDesc l).Pairwise (fun a b => scoreKey b ≤ scoreKey a) := by
  induction l with
  | nil => simp [sortDesc]
  | cons x xs ih => exact insertDesc_pairwise ih

theorem insertDesc_filter_score (r : TournamentResult) (l : List TournamentResult)
    (q : ℚ) :
    (insertDesc r l).filter (fun x => decide (scoreKey x = q)) =
      (r :: l).filter (fun x => decide (scoreKey x = q)) := by
  induction l with
  | nil => rfl
  | cons a as ih =>
    by_cases hlt : scoreKey r < scoreKey a
    · have hins : insertDesc r (a :: as) = a :: insertDesc r as := by
        rw [insertDesc, if_pos hlt]
      rw [hins]
      by_cases hr : scoreKey r = q
      · have ha : ¬scoreKey a = q := by
          intro ha
          rw [hr, ha] at hlt
          exact lt_irrefl q hlt
        simp only [List.filter_cons, ih]
        simp [hr, ha]
      · by_cases ha : scoreKey a = q
        · simp only [List.filter_cons, ih]
          simp [hr, ha]
        · simp only [List.filter_cons, ih]
          simp [hr, ha]
    · rw [insertDesc, if_neg hlt]

theorem sortDesc_filter_score (l : List TournamentResult) (q : ℚ) :
    (sortDesc l).filter (fun x => decide (scoreKey x = q)) =
      l.filter (fun x => decide (scoreKey x = q)) := by
  induction l with
  | nil => rfl
  | cons x xs ih =>
    rw [sortDesc, insertDesc_filter_score, List.filter_cons, List.filter_cons, ih]

theorem enrichOne_scoreKey (ps : Dict Prompt) (r : TournamentResult) :
    scoreKey (enrichOne ps r) = scoreKey r := by
  unfold enrichOne
  split <;> rfl

theorem enrichOne_score (ps : Dict Prompt) (r : TournamentResult) :
    (enrichOne ps r).score = r.score := by
  unfold enrichOne
  split <;> rfl

theorem enrichOne_tournament_id (ps : Dict Prompt) (r : TournamentResult) :
    (enrichOne ps r).tournament_id = r.tournament_id := by
  unfold enrichOne
  split <;> rfl

theorem filter_score_map_enrich (ps : Dict Prompt) (l : List TournamentResult)
    (q : ℚ) :
    (l.map (enrichOne ps)).filter (fun x => decide (scoreKey x = q)) =
      (l.filter (fun x => decide (scoreKey x = q))).map (enrichOne ps) := by
  induction l with
  | nil => rfl
  | cons a as ih =>
    by_cases h : scoreKey a = q <;>
      simp [List.filter_cons, enrichOne_scoreKey, h, ih]

/-- C7.  The leaderboard response consists of exactly the enriched
results whose `tournament_id` matches and whose score is non-null, in
descending score order, and for every score value the entries carrying
it appear in their original store insertion order (stability). -/
theorem claim7_leaderboard (st : Store) (tid : String) (st2 : Store)
    (out : List TournamentResult)
    (h : get_tournament_leaderboard st tid = .ok (st2, out)) :
    out.Perm ((lbFilter st tid).map (enrichOne st.prompts)) ∧
    (∀ r ∈ out, r.tournament_id = tid ∧ r.score ≠ none) ∧
    out.Pairwise (fun a b => scoreKey b ≤ scoreKey a) ∧
    (∀ q : ℚ, out.filter (fun r => decide (scoreKey r = q)) =
        ((lbFilter st tid).map (enrichOne st.prompts)).filter
          (fun r => decide (scoreKey r = q))) := by
  unfold get_tournament_leaderboard at h
  split at h
  · simp at h
  · simp only [Except.ok.injEq, Prod.mk.injEq] at h
    obtain ⟨_, h2⟩ := h
    subst h2
    refine ⟨?_, ?_, ?_, ?_⟩
    · exact (sortDesc_perm (lbFilter st tid)).map (enrichOne st.prompts)
    · intro r hr
      obtain ⟨r0, hr0, hre⟩ := List.mem_map.mp hr
      have hmem : r0 ∈ lbFilter st tid :=
        (sortDesc_perm (lbFilter st tid)).mem_iff.mp hr0
      have hprop := List.of_mem_filter hmem
      simp only [decide_eq_true_eq] at hprop
      subst hre
      rw [enrichOne_tournament_id, enrichOne_score]
      exact hprop
    · exact (sortDesc_pairwise (lbFilter st tid)).map _
        (fun a b hab => by rwa [enrichOne_scoreKey, enrichOne_scoreKey])
    · intro q
      rw [filter_score_map_enrich, filter_score_map_enrich, sortDesc_filter_score]

/-- Results for the C7 witness (inserted in order `ra`, `rb`, `rc`,
`rd`, `re`, with scores 5, 8, 5, null, 9-but-foreign). -/
def c7ra : TournamentResult := { freshResult "ra" "t1" "p1" "A" "s1" with score := some 5 }

def c7rb : TournamentResult := { freshResult "rb" "t1" "p2" "B" "s2" with score := some 8 }

def c7rc : TournamentResult := { freshResult "rc" "t1" "p3" "C" "s3" with score := some 5 }

def c7rd : TournamentResult := freshResult "rd" "t1" "p1" "D" "s4"

def c7re : TournamentResult := { freshResult "re" "t2" "p1" "E" "s5" with score := some 9 }

/-- `c7ra` after the enrichment wrote its prompt metadata (only `p1`
exists in the prompts store). -/
def c7raE : TournamentResult :=
  { c7ra with prompt_name := some "P1", prompt_content := some "C1" }

/-- Store for the C7 witness: three scored results for `t1`, two of them
tied, plus one unscored and one foreign result that must not appear. -/
def c7store : Store :=
  { tournaments := [("t1",
      { id := "t1", name := "T", description := "D", question := "Q",
        prompt_ids := ["p1", "p2", "p3"], created_at := "t0", status := "active" })]
    prompts := [("p1",
      { id := "p1", name := "P1", content := "C1", description := none,
        tournament_id := none })]
    results := [("ra", c7ra), ("rb", c7rb), ("rc", c7rc), ("rd", c7rd), ("re", c7re)] }

/-- The leaderboard response on `c7store`: descending, ties in insertion
order. -/
def c7out : List TournamentResult := [c7rb, c7raE, c7rc]

/-- The store after the read (the listed results were enriched in
place; `p2`/`p3` do not exist so `rb`/`rc` gain nothing). -/
def c7after : Store :=
  { c7store with
    results := [("ra", c7raE), ("rb", c7rb), ("rc", c7rc), ("rd", c7rd), ("re", c7re)] }

/-- Witness for C7 at the concrete store (the tie between `ra` and `rc`
keeps insertion order in the output, with `rb` in front). -/
theorem claim7_leaderboard_witness :
    get_tournament_leaderboard c7store "t1" = .ok (c7after, c7out) ∧
    (c7out.Perm ((lbFilter c7store "t1").map (enrichOne c7store.prompts)) ∧
      (∀ r ∈ c7out, r.tournament_id = "t1" ∧ r.score ≠ none) ∧
      c7out.Pairwise (fun a b => scoreKey b ≤ scoreKey a) ∧
      (∀ q : ℚ, c7out.filter (fun r => decide (scoreKey r = q)) =
          ((lbFilter c7store "t1").map (enrichOne c7store.prompts)).filter
            (fun r => decide (scoreKey r = q)))) := by
  have h : get_tournament_leaderboard c7store "t1" = .ok (c7after, c7out) := by rfl
  exact ⟨h, claim7_leaderboard c7store "t1" c7after c7out h⟩

/-! ### C1 — empty stream: error-and-no-persist only on the single
endpoint -/

/-- The accumulator a bulk stream ends with. -/
def bulkAccum (pid : String) (run : StreamRun) : String :=
  (bulkTokenEvents pid (bulkTokens run.chunks)).2

/-- The token events a bulk stream emits. -/
def bulkTokEvs (pid : String) (run : StreamRun) : List BulkEvent :=
  (bulkTokenEvents pid (bulkTokens run.chunks)).1

/-- Store for the C1 counterexample: one tournament with one prompt and
no results. -/
def c1store : Store :=
  { tournaments := [("t1",
      { id := "t1", name := "T", description := "D", question := "Q",
        prompt_ids := ["p1"], created_at := "t0", status := "active" })]
    prompts := [("p1",
      { id := "p1", name := "P", content := "C", description := none,
        tournament_id := none })]
    results := [] }

/-- Provider for the C1 counterexample: the stream for `p1` yields no
chunks and exhausts; the chained judge call fails (keeping the stored
result untouched). -/
def c1prov : String → PromptProvider :=
  fun _ => .streams { chunks := [], ending := .exhausted } (.callFails "judge down")

/-- Fresh result ids for the C1 counterexample. -/
def c1rids : Nat → String := fun n => String.mk (List.replicate (n + 1) 'x')

/-- Counterexample to C1 as stated.  Inside `auto-generate-all`, a stream
that exhausts with an *empty* accumulator persists a result with empty
`response` and emits a `complete` event — no terminal error event, and
the results store for `(t1, p1)` grows from 0 to 1 entries. -/
theorem claim1_counterexample :
    auto_generate_all_responses c1store true "t1" c1prov c1rids "now" =
      .ok ({ c1store with results := [("x", freshResult "x" "t1" "p1" "" "now")] },
           [.starting "p1", .complete "p1" "x", .summary 1 1 0 0]) ∧
    countPair c1store.results "t1" "p1" = 0 ∧
    countPair [("x", freshResult "x" "t1" "p1" "" "now")] "t1" "p1" = 1 := by
  refine ⟨by rfl, by decide, by decide⟩

/-- C1 amended.  On the *single* auto-generate endpoint an exhausted
stream with an all-whitespace accumulator emits the terminal error event
and leaves the store untouched (lines 358–361).  Inside
`auto-generate-all` there is no such check: an exhausted stream with an
empty accumulator persists a result with empty `response` (still exactly
one new result) and emits a `complete` status event. -/
theorem claim1_amended :
    (∀ st api_key tid pid run judge now rid,
        run.ending = .exhausted →
        stripIsEmpty (genAccum pid run) = true →
        generate_stream st api_key tid pid run judge now rid =
          (st, genTokenEvs pid run ++ [.noContent pid])) ∧
    (∀ api_key tid prov rids now (s : BulkState) (p : Prompt) run judge,
        hasResultFor s.store tid p.id = false →
        prov p.id = .streams run judge →
        run.ending = .exhausted →
        bulkAccum p.id run = "" →
        (bulkStep api_key tid prov rids now s p).events =
            s.events ++ [.starting p.id] ++ bulkTokEvs p.id run
              ++ [.complete p.id (rids s.fresh)] ∧
        ∃ r, dictGet (bulkStep api_key tid prov rids now s p).store.results
                (rids s.fresh) = some r ∧
             r.response = "" ∧ r.tournament_id = tid ∧ r.prompt_id = p.id) := by
  constructor
  · intro st api_key tid pid run judge now rid hend hempty
    unfold generate_stream genTokenEvs
    rw [hend]
    simp only [genAccum] at hempty
    simp [hempty]
  · intro api_key tid prov rids now s p run judge hskip hprov hend hempty
    have hstep : bulkStep api_key tid prov rids now s p =
        { store := (auto_score_response
            (persistedStore s.store (rids s.fresh) tid p.id (bulkAccum p.id run) now)
            api_key tid (some p.id) (some (rids s.fresh)) judge now).1
          events := (s.events ++ [.starting p.id]) ++ bulkTokEvs p.id run
            ++ [.complete p.id (rids s.fresh)]
          tally := s.tally ++ [.generated]
          fresh := s.fresh + 1 } := by
      unfold bulkStep
      simp only [hskip, hprov, hend, Bool.false_eq_true, if_false]
      simp [persistedStore, bulkAccum, bulkTokEvs]
    refine ⟨by rw [hstep], ?_⟩
    rw [hstep]
    have hshape := (auto_score_frame
      (persistedStore s.store (rids s.fresh) tid p.id (bulkAccum p.id run) now)
      api_key tid (some p.id) (some (rids s.fresh)) judge now).2.2
    have hget := dictGet_shape hshape (rids s.fresh)
    rw [show (persistedStore s.store (rids s.fresh) tid p.id (bulkAccum p.id run) now).results
        = dictSet s.store.results (rids s.fresh)
            (freshResult (rids s.fresh) tid p.id (bulkAccum p.id run) now) from rfl,
      dictGet_dictSet_self] at hget
    cases hcase : dictGet (auto_score_response
        (persistedStore s.store (rids s.fresh) tid p.id (bulkAccum p.id run) now)
        api_key tid (some p.id) (some (rids s.fresh)) judge now).1.results
        (rids s.fresh) with
    | none =>
      rw [hcase] at hget
      simp at hget
    | some r =>
      rw [hcase] at hget
      simp [freshResult, hempty] at hget
      exact ⟨r, rfl, hget.2.2, hget.1, hget.2.1⟩

/-- Store for the C1 amended witness (distinct from the counterexample
objects). -/
def c1wstore : Store :=
  { tournaments := [("t2",
      { id := "t2", name := "T2", description := "D", question := "Q",
        prompt_ids := ["p9"], created_at := "t0", status := "active" })]
    prompts := [("p9",
      { id := "p9", name := "P9", content := "C", description := none,
        tournament_id := none })]
    results := [] }

/-- Witness for the amended C1: the single endpoint on a whitespace-only
stream (error, no persist), and one bulk step on an empty exhausted
stream (persisted empty response, `complete` event). -/
theorem claim1_amended_witness :
    stripIsEmpty (genAccum "p9" { chunks := [some "  ", none], ending := .exhausted })
        = true ∧
    generate_stream c1wstore true "t2" "p9"
        { chunks := [some "  ", none], ending := .exhausted }
        (.callFails "x") "now" "r9" =
      (c1wstore, genTokenEvs "p9" { chunks := [some "  ", none], ending := .exhausted }
        ++ [.noContent "p9"]) ∧
    bulkAccum "p9" { chunks := [], ending := .exhausted } = "" ∧
    (∃ r, dictGet (bulkStep true "t2" (fun _ => .streams
            { chunks := [], ending := .exhausted } (.callFails "x"))
            (fun n => String.mk (List.replicate (n + 1) 'y')) "now"
            { store := c1wstore, events := [], tally := [], fresh := 0 }
            { id := "p9", name := "P9", content := "C", description := none,
              tournament_id := none }).store.results "y" = some r ∧
        r.response = "" ∧ r.tournament_id = "t2" ∧ r.prompt_id = "p9") := by
  have h1 := claim1_amended.1 c1wstore true "t2" "p9"
    { chunks := [some "  ", none], ending := .exhausted } (.callFails "x") "now" "r9"
    rfl (by decide)
  have h2 := claim1_amended.2 true "t2"
    (fun _ => .streams { chunks := [], ending := .exhausted } (.callFails "x"))
    (fun n => String.mk (List.replicate (n + 1) 'y')) "now"
    { store := c1wstore, events := [], tally := [], fresh := 0 }
    { id := "p9", name := "P9", content := "C", description := none,
      tournament_id := none }
    { chunks := [], ending := .exhausted } (.callFails "x")
    (by decide) rfl rfl (by decide)
  exact ⟨by decide, h1, by decide, h2.2⟩

/-! ### C4 — bulk generation is idempotent per (tournament, prompt) -/

theorem persist_keys_counts (store : Dict TournamentResult)
    (rid tid pid resp now : String) (hkey : dictGet store rid = none) :
    dictKeys (dictSet store rid (freshResult rid tid pid resp now)) =
      dictKeys store ++ [rid] ∧
    (∀ q, countPair (dictSet store rid (freshResult rid tid pid resp now)) tid q =
        countPair store tid q + (if q = pid then 1 else 0)) := by
  rw [dictSet_fresh _ hkey]
  constructor
  · simp [dictKeys]
  · intro q
    rw [countPair_append_single]
    congr 1
    by_cases hq : q = pid
    · simp [freshResult, hq]
    · simp [freshResult, hq]
      exact fun h => hq h.symm

/-- One step of the bulk loop: the fresh-id pool stays fresh, the count
of results for every (tid, q) pair never decreases, and never exceeds
`max (previous count) 1`. -/
theorem bulkStep_invariant (api_key : Bool) (tid : String)
    (prov : String → PromptProvider) (rids : Nat → String) (now : String)
    (hinj : Function.Injective rids) (s : BulkState) (p : Prompt)
    (hfresh : ∀ j, s.fresh ≤ j → rids j ∉ dictKeys s.store.results) :
    s.fresh ≤ (bulkStep api_key tid prov rids now s p).fresh ∧
    (∀ j, (bulkStep api_key tid prov rids now s p).fresh ≤ j →
        rids j ∉ dictKeys (bulkStep api_key tid prov rids now s p).store.results) ∧
    (∀ q, countPair s.store.results tid q ≤
        countPair (bulkStep api_key tid prov rids now s p).store.results tid q) ∧
    (∀ q, countPair (bulkStep api_key tid prov rids now s p).store.results tid q ≤
        max (countPair s.store.results tid q) 1) := by
  by_cases hskip : hasResultFor s.store tid p.id = true
  · have hstep : bulkStep api_key tid prov rids now s p =
        { s with events := s.events ++ [.skipped p.id],
                 tally := s.tally ++ [.wasSkipped] } := by
      unfold bulkStep
      simp [hskip]
    rw [hstep]
    exact ⟨le_refl _, hfresh, fun q => le_refl _, fun q => le_max_left _ _⟩
  · have hskipf : hasResultFor s.store tid p.id = false := by simpa using hskip
    have hzero : countPair s.store.results tid p.id = 0 :=
      (hasResultFor_false_iff s.store tid p.id).mp hskipf
    cases hprov : prov p.id with
    | setupFails msg =>
      have hstep : bulkStep api_key tid prov rids now s p =
          { store := s.store, events := s.events ++ [.starting p.id, .errored p.id msg],
            tally := s.tally ++ [.errored], fresh := s.fresh } := by
        unfold bulkStep
        simp [hskipf, hprov]
      rw [hstep]
      exact ⟨le_refl _, hfresh, fun q => le_refl _, fun q => le_max_left _ _⟩
    | streams run judge =>
      have hkey : dictGet s.store.results (rids s.fresh) = none :=
        (dictGet_eq_none_iff _ _).mpr (hfresh s.fresh (le_refl _))
      cases hrun : run.ending with
      | exhausted =>
        have hstep : bulkStep api_key tid prov rids now s p =
            { store := (auto_score_response
                (persistedStore s.store (rids s.fresh) tid p.id (bulkAccum p.id run) now)
                api_key tid (some p.id) (some (rids s.fresh)) judge now).1
              events := (s.events ++ [.starting p.id]) ++ bulkTokEvs p.id run
                ++ [.complete p.id (rids s.fresh)]
              tally := s.tally ++ [.generated]
              fresh := s.fresh + 1 } := by
          unfold bulkStep
          simp only [hskipf, hprov, hrun, Bool.false_eq_true, if_false]
          simp [persistedStore, bulkAccum, bulkTokEvs]
        rw [hstep]
        have hshape := (auto_score_frame
          (persistedStore s.store (rids s.fresh) tid p.id (bulkAccum p.id run) now)
          api_key tid (some p.id) (some (rids s.fresh)) judge now).2.2
        have hpk := persist_keys_counts s.store.results (rids s.fresh) tid p.id
          (bulkAccum p.id run) now hkey
        have hkeys : dictKeys (auto_score_response
            (persistedStore s.store (rids s.fresh) tid p.id (bulkAccum p.id run) now)
            api_key tid (some p.id) (some (rids s.fresh)) judge now).1.results =
            dictKeys s.store.results ++ [rids s.fresh] := by
          rw [keys_of_shape hshape]
          exact hpk.1
        have hcount : ∀ q, countPair (auto_score_response
            (persistedStore s.store (rids s.fresh) tid p.id (bulkAccum p.id run) now)
            api_key tid (some p.id) (some (rids s.fresh)) judge now).1.results tid q =
            countPair s.store.results tid q + (if q = p.id then 1 else 0) := by
          intro q
          rw [countPair_of_shape hshape]
          exact hpk.2 q
        refine ⟨Nat.le_succ _, ?_, ?_, ?_⟩
        · intro j hj
          have hj2 : s.fresh + 1 ≤ j := hj
          rw [hkeys]
          simp only [List.mem_append, List.mem_singleton]
          rintro (hmem | heq)
          · exact hfresh j (Nat.le_of_succ_le hj2) hmem
          · have := hinj heq
            omega
        · intro q
          rw [hcount q]
          exact Nat.le_add_right _ _
        · intro q
          rw [hcount q]
          by_cases hq : q = p.id
          · subst hq
            rw [hzero]
            simp
          · simp only [hq, if_false, Nat.add_zero]
            exact le_max_left _ _
      | raised msg =>
        by_cases hne : stripIsEmpty (bulkAccum p.id run) = true
        · have hstep : bulkStep api_key tid prov rids now s p =
              { store := s.store
                events := (s.events ++ [.starting p.id]) ++ bulkTokEvs p.id run
                  ++ [.errored p.id msg]
                tally := s.tally ++ [.errored], fresh := s.fresh } := by
            unfold bulkStep
            simp only [hskipf, hprov, hrun, Bool.false_eq_true, if_false]
            simp only [bulkAccum] at hne
            simp [hne, bulkTokEvs]
          rw [hstep]
          exact ⟨le_refl _, hfresh, fun q => le_refl _, fun q => le_max_left _ _⟩
        · have hnef : stripIsEmpty (bulkAccum p.id run) = false := by simpa using hne
          have hstep : bulkStep api_key tid prov rids now s p =
              { store := persistedStore s.store (rids s.fresh) tid p.id
                  (bulkAccum p.id run ++ cutMarker) now
                events := (s.events ++ [.starting p.id]) ++ bulkTokEvs p.id run
                  ++ [.truncComplete p.id (rids s.fresh)]
                tally := s.tally ++ [.truncated], fresh := s.fresh + 1 } := by
            unfold bulkStep
            simp only [hskipf, hprov, hrun, Bool.false_eq_true, if_false]
            simp only [bulkAccum] at hnef
            simp [hnef, bulkTokEvs, bulkAccum, persistedStore]
          rw [hstep]
          have hpk := persist_keys_counts s.store.results (rids s.fresh) tid p.id
            (bulkAccum p.id run ++ cutMarker) now hkey
          have hres : (persistedStore s.store (rids s.fresh) tid p.id
                (bulkAccum p.id run ++ cutMarker) now).results
              = dictSet s.store.results (rids s.fresh)
                (freshResult (rids s.fresh) tid p.id (bulkAccum p.id run ++ cutMarker) now) :=
            rfl
          refine ⟨Nat.le_succ _, ?_, ?_, ?_⟩
          · intro j hj
            have hj2 : s.fresh + 1 ≤ j := hj
            rw [hres, hpk.1]
            simp only [List.mem_append, List.mem_singleton]
            rintro (hmem | heq)
            · exact hfresh j (Nat.le_of_succ_le hj2) hmem
            · have := hinj heq
              omega
          · intro q
            rw [hres, hpk.2 q]
            exact Nat.le_add_right _ _
          · intro q
            rw [hres, hpk.2 q]
            by_cases hq : q = p.id
            · subst hq
              rw [hzero]
              simp
            · simp only [hq, if_false, Nat.add_zero]
              exact le_max_left _ _

/-- The whole bulk loop preserves the count bounds. -/
theorem bulkFold_invariant (api_key : Bool) (tid : String)
    (prov : String → PromptProvider) (rids : Nat → String) (now : String)
    (hinj : Function.Injective rids) (ps : List Prompt) (s : BulkState)
    (hfresh : ∀ j, s.fresh ≤ j → rids j ∉ dictKeys s.store.results) :
    (∀ q, countPair s.store.results tid q ≤
        countPair (ps.foldl (bulkStep api_key tid prov rids now) s).store.results tid q) ∧
    (∀ q, countPair (ps.foldl (bulkStep api_key tid prov rids now) s).store.results tid q ≤
        max (countPair s.store.results tid q) 1) := by
  induction ps generalizing s with
  | nil =>
    exact ⟨fun q => le_refl _, fun q => le_max_left _ _⟩
  | cons p ps ih =>
    have hstep := bulkStep_invariant api_key tid prov rids now hinj s p hfresh
    have ihh := ih (bulkStep api_key tid prov rids now s p) hstep.2.1
    constructor
    · intro q
      exact le_trans (hstep.2.2.1 q) (ihh.1 q)
    · intro q
      refine le_trans (ihh.2 q) ?_
      refine le_trans (max_le_max (hstep.2.2.2 q) (le_refl 1)) ?_
      rw [max_assoc, max_self]

/-- C4.  Within one `auto-generate-all` run: a prompt is skipped (with a
`skipped` event and no store change) whenever *any* result for
(tournament, prompt) exists at the moment it is reached, regardless of
score state; and for every pair, a run starting from zero results stores
at most one, while a run starting from an existing result stores none. -/
theorem claim4_bulk_idempotent (st : Store) (api_key : Bool) (tid : String)
    (tps : List Prompt) (prov : String → PromptProvider) (rids : Nat → String)
    (now : String) (st2 : Store) (evs : List BulkEvent)
    (hinj : Function.Injective rids)
    (hfresh : ∀ j, rids j ∉ dictKeys st.results)
    (h : generate_all_stream st api_key tid tps prov rids now = (st2, evs)) :
    (∀ pid, countPair st.results tid pid = 0 → countPair st2.results tid pid ≤ 1) ∧
    (∀ pid, 1 ≤ countPair st.results tid pid →
        countPair st2.results tid pid = countPair st.results tid pid) ∧
    (∀ (s : BulkState) (p : Prompt), hasResultFor s.store tid p.id = true →
        bulkStep api_key tid prov rids now s p =
          { s with events := s.events ++ [.skipped p.id],
                   tally := s.tally ++ [.wasSkipped] }) := by
  have hinv := bulkFold_invariant api_key tid prov rids now hinj tps
    { store := st, events := [], tally := [], fresh := 0 }
    (fun j _ => hfresh j)
  have hst2 : st2 = (tps.foldl (bulkStep api_key tid prov rids now)
      { store := st, events := [], tally := [], fresh := 0 }).store := by
    unfold generate_all_stream at h
    exact (congrArg Prod.fst h).symm
  refine ⟨?_, ?_, ?_⟩
  · intro pid hp0
    rw [hst2]
    have := hinv.2 pid
    simp only [hp0] at this
    simpa using this
  · intro pid hp1
    rw [hst2]
    refine le_antisymm ?_ (hinv.1 pid)
    refine le_trans (hinv.2 pid) ?_
    exact max_le (le_refl _) hp1
  · intro s p hs
    unfold bulkStep
    simp [hs]

/-- Store for the C4 witness: one result for `(t3, pa)` already present,
one fresh prompt `pb`. -/
def c4store : Store :=
  { tournaments := [("t3",
      { id := "t3", name := "T3", description := "D", question := "Q",
        prompt_ids := ["pa", "pb"], created_at := "t0", status := "active" })]
    prompts :=
      [("pa",
        { id := "pa", name := "PA", content := "CA", description := none,
          tournament_id := none }),
       ("pb",
        { id := "pb", name := "PB", content := "CB", description := none,
          tournament_id := none })]
    results := [("r0", freshResult "r0" "t3" "pa" "old answer" "t1time")] }

/-- Prompt list of the C4 witness tournament. -/
def c4prompts : List Prompt :=
  [{ id := "pa", name := "PA", content := "CA", description := none,
     tournament_id := none },
   { id := "pb", name := "PB", content := "CB", description := none,
     tournament_id := none }]

/-- Provider for the C4 witness: every stream yields one chunk and
exhausts; the judge call fails. -/
def c4prov : String → PromptProvider :=
  fun _ => .streams { chunks := [some "ans"], ending := .exhausted } (.callFails "down")

/-- Fresh result ids for the C4 witness. -/
def c4rids : Nat → String := fun n => String.mk (List.replicate (n + 1) 'z')

theorem c4rids_injective : Function.Injective c4rids := by
  intro a b h
  simp only [c4rids] at h
  have h2 : List.replicate (a + 1) 'z' = List.replicate (b + 1) 'z' :=
    congrArg String.data h
  have h3 := congrArg List.length h2
  simpa using h3

theorem c4rids_fresh : ∀ j, c4rids j ∉ dictKeys c4store.results := by
  intro j hmem
  have hmem2 : c4rids j = "r0" := by simpa [c4store, dictKeys] using hmem
  have hlen := congrArg String.length hmem2
  have hr0 : ("r0" : String).length = 2 := by decide
  have h2 : j + 1 = 2 := by simpa [c4rids, String.length, hr0] using hlen
  have hj : j = 1 := by omega
  rw [hj] at hmem2
  exact absurd hmem2 (by decide)

/-- Witness for C4: `pa` is skipped (a result pre-exists), `pb` gets
exactly one new result. -/
theorem claim4_bulk_idempotent_witness :
    generate_all_stream c4store true "t3" c4prompts c4prov c4rids "now" =
      ({ c4store with results :=
          [("r0", freshResult "r0" "t3" "pa" "old answer" "t1time"),
           ("z", freshResult "z" "t3" "pb" "ans" "now")] },
       [.skipped "pa", .starting "pb", .token "pb" "ans" "ans", .complete "pb" "z",
        .summary 2 1 1 0]) ∧
    (∀ pid, countPair c4store.results "t3" pid = 0 →
        countPair ({ c4store with results :=
          [("r0", freshResult "r0" "t3" "pa" "old answer" "t1time"),
           ("z", freshResult "z" "t3" "pb" "ans" "now")] } : Store).results "t3" pid ≤ 1) ∧
    (∀ pid, 1 ≤ countPair c4store.results "t3" pid →
        countPair ({ c4store with results :=
          [("r0", freshResult "r0" "t3" "pa" "old answer" "t1time"),
           ("z", freshResult "z" "t3" "pb" "ans" "now")] } : Store).results "t3" pid =
          countPair c4store.results "t3" pid) := by
  have h : generate_all_stream c4store true "t3" c4prompts c4prov c4rids "now" =
      ({ c4store with results :=
          [("r0", freshResult "r0" "t3" "pa" "old answer" "t1time"),
           ("z", freshResult "z" "t3" "pb" "ans" "now")] },
       [.skipped "pa", .starting "pb", .token "pb" "ans" "ans", .complete "pb" "z",
        .summary 2 1 1 0]) := by rfl
  have hc := claim4_bulk_idempotent c4store true "t3" c4prompts c4prov c4rids "now" _ _
    c4rids_injective c4rids_fresh h
  exact ⟨h, hc.1, hc.2.1⟩

/-! ### Concrete witnesses for C5, C6 and C10 -/

/-- Store for the C5 witness: tournament `t4` owns prompt `p5` and one
result; prompt `p6` and the result for `t9` belong to nobody and must
survive the delete. -/
def c5store : Store :=
  { tournaments := [("t4",
      { id := "t4", name := "T4", description := "D", question := "Q",
        prompt_ids := ["p5"], created_at := "t0", status := "active" })]
    prompts :=
      [("p5",
        { id := "p5", name := "P5", content := "C5", description := none,
          tournament_id := none }),
       ("p6",
        { id := "p6", name := "P6", content := "C6", description := none,
          tournament_id := none })]
    results :=
      [("ra", freshResult "ra" "t4" "p5" "A" "s1"),
       ("rb", freshResult "rb" "t9" "p6" "B" "s2")] }

/-- The C5 tournament entity. -/
def c5t : Tournament :=
  { id := "t4", name := "T4", description := "D", question := "Q",
    prompt_ids := ["p5"], created_at := "t0", status := "active" }

/-- The store left behind by the C5 delete. -/
def c5after : Store :=
  { tournaments := []
    prompts := [("p6",
      { id := "p6", name := "P6", content := "C6", description := none,
        tournament_id := none })]
    results := [("rb", freshResult "rb" "t9" "p6" "B" "s2")] }

/-- Witness for C5 at the concrete store. -/
theorem claim5_delete_tournament_witness :
    dictGet c5store.tournaments "t4" = some c5t ∧
    delete_tournament c5store "t4" = .ok c5after ∧
    (∀ pid ∈ c5t.prompt_ids, dictGet c5after.prompts pid = none) := by
  have ht : dictGet c5store.tournaments "t4" = some c5t := by rfl
  have h : delete_tournament c5store "t4" = .ok c5after := by rfl
  exact ⟨ht, h, (claim5_delete_tournament c5store "t4" c5t _ ht h).2.1⟩

/-- Store for the C6 witness before the prompt is added. -/
def c6store : Store :=
  { tournaments := [("t5",
      { id := "t5", name := "T5", description := "D", question := "Q",
        prompt_ids := [], created_at := "t0", status := "active" })]
    prompts := []
    results := [] }

/-- The prompt body submitted to the add-prompt endpoint in the C6
witness. -/
def c6body : Prompt :=
  { id := "client", name := "New prompt", content := "Do the thing",
    description := none, tournament_id := none }

/-- The prompt entity the add-prompt endpoint stores in the C6
witness. -/
def c6pr : Prompt :=
  { id := "p7", name := "New prompt", content := "Do the thing",
    description := some "", tournament_id := none }

/-- The store after the C6 witness added its prompt. -/
def c6after : Store :=
  { tournaments := [("t5",
      { id := "t5", name := "T5", description := "D", question := "Q",
        prompt_ids := ["p7"], created_at := "t0", status := "active" })]
    prompts := [("p7", c6pr)]
    results := [] }

/-- Witness for C6: add a prompt through the endpoint, observe that the
stored prompt has no `tournament_id`, then watch the delete endpoint
reject it with 400. -/
theorem claim6_delete_prompt_rejected_witness :
    add_prompt_to_tournament c6store "t5" c6body "p7" = .ok (c6after, c6pr) ∧
    c6pr.tournament_id = none ∧
    dictGet c6after.prompts "p7" = some c6pr ∧
    delete_prompt_from_tournament c6after "t5" "p7" =
      .error (.badRequest "Prompt does not belong to this tournament") := by
  have h : add_prompt_to_tournament c6store "t5" c6body "p7" = .ok (c6after, c6pr) := by
    rfl
  have hfacts := claim6_delete_prompt_rejected.1 c6store "t5" c6body "p7" _ _ h
  refine ⟨h, hfacts.1, hfacts.2, ?_⟩
  exact claim6_delete_prompt_rejected.2 c6after "t5" "p7" _ _ (by rfl) (by rfl)
    hfacts.1

/-- Store for the C10 witness. -/
def c10store : Store :=
  { tournaments := [("t6",
      { id := "t6", name := "T6", description := "D", question := "Q",
        prompt_ids := [], created_at := "t0", status := "active" })]
    prompts := []
    results := [] }

/-- A submission body carrying client-supplied `id`, `tournament_id` and
`created_at` that the endpoint must ignore. -/
def c10body : TournamentResult :=
  { id := some "evil-id", tournament_id := "other-tournament", prompt_id := "p1",
    response := "my answer", score := some 9, feedback := some "great",
    created_at := some "1999-01-01" }

/-- The entity the C10 witness submission stores. -/
def c10stored : TournamentResult :=
  { c10body with
    id := some "fresh-uuid"
    tournament_id := "t6"
    created_at := some "2024-01-01" }

/-- The store after the C10 witness submission. -/
def c10after : Store := { c10store with results := [("fresh-uuid", c10stored)] }

/-- Witness for C10 at the concrete store and body. -/
theorem claim10_submit_result_witness :
    submit_result c10store "t6" c10body "2024-01-01" "fresh-uuid" =
      .ok (c10after, c10stored) ∧
    (dictGet c10after.results "fresh-uuid" = some c10stored ∧
      c10stored.id = some "fresh-uuid" ∧ c10stored.tournament_id = "t6" ∧
      c10stored.created_at = some "2024-01-01" ∧
      c10stored.response = c10body.response ∧ c10stored.score = c10body.score ∧
      c10stored.feedback = c10body.feedback) := by
  have h : submit_result c10store "t6" c10body "2024-01-01" "fresh-uuid" =
      .ok (c10after, c10stored) := by rfl
  exact ⟨h, claim10_submit_result c10store "t6" c10body "2024-01-01" "fresh-uuid" _ _ h⟩

end TW
